import Mathlib

/-!
Verification development for the RadonEye reader and dumper codecs.

The Python sources are shallowly embedded here:
byte buffers (Python `bytearray`) become `List ℕ` (one natural per byte),
fallible operations (Python exceptions) become `Except`, and readings
become a fixed-shape structure.  Floating point is avoided: a pCi/L value
`round(bq / 37, 2)` is represented exactly as an integer number of
hundredths of a pCi/L; for every 16-bit `bq` the Python float computation
agrees with the exact rational rounding embedded here, because the
distance of `bq / 37` from every decimal rounding boundary is at least
`1 / 7400`, far above double-precision error.
-/

namespace RadonEye

/-- Python `data[start : start + len]`: slicing silently truncates at the
end of the buffer instead of failing. -/
def slice (data : List ℕ) (start len : ℕ) : List ℕ :=
  (data.drop start).take len

/-- Failure modes of the current-packet parser: `struct.error` raised by
`unpack` on a slice that is not exactly 2 bytes, and `UnicodeDecodeError`
raised by `bytes.decode` on invalid text. -/
inductive ParseErr where
  | shortOutOfRange (start : ℕ)
  | strDecodeErr (start len : ℕ)
  deriving DecidableEq

/-- `RadonEyeParser.read_short` (radoneye-reader.py line 20):
`unpack("<H", data[start : start + 2])[0]`, the little-endian unsigned
16-bit integer at `start`.  `unpack` demands exactly two bytes, so a
window extending past the end of the buffer raises. -/
def read_short (data : List ℕ) (start : ℕ) : Except ParseErr ℕ :=
  match slice data start 2 with
  | [lo, hi] => .ok (lo + 256 * hi)
  | _ => .error (.shortOutOfRange start)

/-- Strict UTF-8 decoding of a byte sequence, modelling the external
Python `bytes.decode()` collaborator: continuation bytes, overlong
encodings, surrogates and out-of-range lead bytes are all rejected. -/
def utf8Decode : List ℕ → Option (List Char)
  | [] => some []
  | b1 :: rest =>
    if b1 < 0x80 then
      (utf8Decode rest).map (fun cs => Char.ofNat b1 :: cs)
    else if b1 < 0xC2 then none
    else if b1 < 0xE0 then
      match rest with
      | b2 :: rest2 =>
        if 0x80 ≤ b2 ∧ b2 < 0xC0 then
          (utf8Decode rest2).map (fun cs => Char.ofNat ((b1 - 0xC0) * 0x40 + (b2 - 0x80)) :: cs)
        else none
      | _ => none
    else if b1 < 0xF0 then
      match rest with
      | b2 :: b3 :: rest3 =>
        if (0x80 ≤ b2 ∧ b2 < 0xC0) ∧ (0x80 ≤ b3 ∧ b3 < 0xC0)
            ∧ (b1 = 0xE0 → 0xA0 ≤ b2) ∧ (b1 = 0xED → b2 < 0xA0) then
          (utf8Decode rest3).map (fun cs =>
            Char.ofNat ((b1 - 0xE0) * 0x1000 + (b2 - 0x80) * 0x40 + (b3 - 0x80)) :: cs)
        else none
      | _ => none
    else if b1 < 0xF5 then
      match rest with
      | b2 :: b3 :: b4 :: rest4 =>
        if (0x80 ≤ b2 ∧ b2 < 0xC0) ∧ (0x80 ≤ b3 ∧ b3 < 0xC0) ∧ (0x80 ≤ b4 ∧ b4 < 0xC0)
            ∧ (b1 = 0xF0 → 0x90 ≤ b2) ∧ (b1 = 0xF4 → b2 < 0x90) then
          (utf8Decode rest4).map (fun cs =>
            Char.ofNat ((b1 - 0xF0) * 0x40000 + (b2 - 0x80) * 0x1000
              + (b3 - 0x80) * 0x40 + (b4 - 0x80)) :: cs)
        else none
      | _ => none
    else none

/-- `RadonEyeParser.read_str` (radoneye-reader.py line 23):
`data[start : start + length].decode()`.  The slice truncates silently;
only invalid text makes the decode raise. -/
def read_str (data : List ℕ) (start len : ℕ) : Except ParseErr String :=
  match utf8Decode (slice data start len) with
  | some cs => .ok (String.mk cs)
  | none => .error (.strDecodeErr start len)

/-- Round `num / den` to the nearest integer, ties to even, on naturals.
This is the exact-rational semantics of the Python builtin `round`. -/
def roundHalfEven (num den : ℕ) : ℕ :=
  let q := num / den
  let r := num % den
  if 2 * r < den then q
  else if den < 2 * r then q + 1
  else if q % 2 = 0 then q else q + 1

/-- `RadonEyeParser.to_pci_l` (radoneye-reader.py line 26):
`round(value_bq_m3 / 37, 2)`, represented exactly as an integer number of
hundredths of a pCi/L (so `1.35` is represented as `135`).  No 16-bit
input ever lands exactly on a rounding tie, so this agrees with the
float computation for the whole 16-bit domain. -/
def to_pci_l (value_bq_m3 : ℕ) : ℕ :=
  roundHalfEven (100 * value_bq_m3) 37

/-- Python `f"{n:02}"`: decimal rendering zero-padded to two digits. -/
def pad2 (n : ℕ) : String :=
  if n < 10 then "0" ++ toString n else toString n

/-- Uptime rendering of radoneye-reader.py lines 43 to 46:
`days = floor(minutes / 1440)`, `hours = floor(minutes % 1440 / 60)`,
`mins = minutes % 60`, rendered as `f"{days}d {hours:02}:{mins:02}"`.
The Python float divisions are exact enough that `math.floor` of them
equals natural division for every 16-bit minute count. -/
def uptime_str_of (uptime_minutes : ℕ) : String :=
  toString (uptime_minutes / (60 * 24)) ++ "d "
    ++ pad2 (uptime_minutes % (60 * 24) / 60) ++ ":"
    ++ pad2 (uptime_minutes % 60)

/-- The dictionary produced by `RadonEyeParser.parse_sensor_data`
(radoneye-reader.py lines 50 to 67) as a fixed-shape record; the
`*_pci_l` fields are in hundredths of a pCi/L. -/
structure Reading where
  serial : String
  model : String
  version : String
  latest_bq_m3 : ℕ
  latest_pci_l : ℕ
  day_avg_bq_m3 : ℕ
  day_avg_pci_l : ℕ
  month_avg_bq_m3 : ℕ
  month_avg_pci_l : ℕ
  peak_bq_m3 : ℕ
  peak_pci_l : ℕ
  counts_current : ℕ
  counts_previous : ℕ
  counts_str : String
  uptime_minutes : ℕ
  uptime_str : String
  deriving DecidableEq

/-- `RadonEyeParser.parse_sensor_data` (radoneye-reader.py lines 29 to 67)
and the identical `RadonEyeDumper.decode_current_data`
(radoneye-dumper.py lines 57 to 95), in Python evaluation order. -/
def parse_sensor_data (data : List ℕ) : Except ParseErr Reading := do
  let s1 ← read_str data 8 3
  let s2 ← read_str data 2 6
  let s3 ← read_str data 11 4
  let model ← read_str data 16 6
  let version ← read_str data 22 6
  let latest_bq_m3 ← read_short data 33
  let day_avg_bq_m3 ← read_short data 35
  let month_avg_bq_m3 ← read_short data 37
  let counts_current ← read_short data 39
  let counts_previous ← read_short data 41
  let uptime_minutes ← read_short data 43
  let peak_bq_m3 ← read_short data 51
  pure
    { serial := s1 ++ s2 ++ s3
      model := model
      version := version
      latest_bq_m3 := latest_bq_m3
      latest_pci_l := to_pci_l latest_bq_m3
      day_avg_bq_m3 := day_avg_bq_m3
      day_avg_pci_l := to_pci_l day_avg_bq_m3
      month_avg_bq_m3 := month_avg_bq_m3
      month_avg_pci_l := to_pci_l month_avg_bq_m3
      peak_bq_m3 := peak_bq_m3
      peak_pci_l := to_pci_l peak_bq_m3
      counts_current := counts_current
      counts_previous := counts_previous
      counts_str := toString counts_current ++ "/" ++ toString counts_previous
      uptime_minutes := uptime_minutes
      uptime_str := uptime_str_of uptime_minutes }

/-- Failure modes of `RadonEyeDumper.decode_history_data`: `IndexError`
from `pop(0)` on a buffer shorter than the 4-byte header, and
`struct.error` from `unpack` when the remaining byte count is odd. -/
inductive HistErr where
  | headerTooShort
  | oddPayload
  deriving DecidableEq

/-- The two non-fatal validation warnings printed by
`decode_history_data` (radoneye-dumper.py lines 40 to 43). -/
inductive HistWarning where
  | commandMismatch (expected found : ℕ)
  | valueCountMismatch (expected found : ℕ)
  deriving DecidableEq

/-- One decoded history page, the dictionary returned by
`decode_history_data` (radoneye-dumper.py lines 48 to 55); `values_pci_l`
is in hundredths of a pCi/L. -/
structure HistoryPage where
  command : ℕ
  page_count : ℕ
  page_no : ℕ
  value_count : ℕ
  values_bq_m3 : List ℕ
  values_pci_l : List ℕ
  deriving DecidableEq

/-- `unpack("<" ++ "H" * (len(data) // 2), data)`: consecutive
little-endian unsigned 16-bit values. -/
def unpackShorts : List ℕ → List ℕ
  | lo :: hi :: rest => (lo + 256 * hi) :: unpackShorts rest
  | _ => []

/-- The full observable effect of one `decode_history_data` call:
the returned page, the contents the input bytearray is left with after
the four destructive `pop(0)` calls, whether `self.history_done` was
assigned `True`, and the warnings printed to standard output. -/
structure HistResult where
  page : HistoryPage
  finalBuffer : List ℕ
  historyDone : Bool
  warnings : List HistWarning
  deriving DecidableEq

/-- `RadonEyeDumper.COMMAND_HISTORY` (radoneye-dumper.py line 17). -/
def COMMAND_HISTORY : ℕ := 0x41

/-- `RadonEyeDumper.decode_history_data` (radoneye-dumper.py lines 32 to
55).  The four header bytes are popped off the front of the mutable
input buffer; the rest is unpacked as 16-bit values (failing when its
length is odd); command and value-count mismatches only print warnings;
`self.history_done` is set exactly when `page_count == page_no`. -/
def decode_history_data (data : List ℕ) : Except HistErr HistResult :=
  match data with
  | command :: page_count :: page_no :: value_count :: rest =>
    if rest.length % 2 = 0 then
      let values_bq_m3 := unpackShorts rest
      .ok
        { page :=
            { command := command
              page_count := page_count
              page_no := page_no
              value_count := value_count
              values_bq_m3 := values_bq_m3
              values_pci_l := values_bq_m3.map to_pci_l }
          finalBuffer := rest
          historyDone := page_count == page_no
          warnings :=
            (if command ≠ COMMAND_HISTORY
              then [HistWarning.commandMismatch COMMAND_HISTORY command] else [])
            ++ (if values_bq_m3.length ≠ value_count
              then [HistWarning.valueCountMismatch value_count values_bq_m3.length] else []) }
    else .error .oddPayload
  | _ => .error .headerTooShort

/-- The effect of one received history page on the `history_done` flag:
`decode_history_data` assigns `True` when `page_count == page_no` and
otherwise leaves the flag as it was (radoneye-dumper.py lines 45 to 46). -/
def history_done_step (done : Bool) (p : HistoryPage) : Bool :=
  done || (p.page_count == p.page_no)

/-- The `history_done` flag after the pages of one dump have been
processed in arrival order, starting from the `False` set in
`RadonEyeDumper.dump` (radoneye-dumper.py line 99). -/
def process_pages (pages : List HistoryPage) : Bool :=
  pages.foldl history_done_step false

/-- Modelled from the spec: reassembly of a multi-page dump in arrival
order (the dumper itself only prints each page; no reassembly code is
under src).  Following the words of the spec, the value sequences of the
received pages are concatenated in arrival order. -/
def reassemble (pages : List HistoryPage) : List ℕ :=
  (pages.map HistoryPage.values_bq_m3).flatten

/-- Little-endian encoding of 16-bit values, the inverse of
`unpackShorts`; used to build concrete history payloads. -/
def packShorts (vs : List ℕ) : List ℕ :=
  (vs.map (fun v => [v % 256, v / 256])).flatten

/-- Entries printed to the error stream by the per-device retry loop.
`attemptFailure` is the `handle_sensor_error` print (radoneye-reader.py
lines 293 to 299) carrying device address, attempt number and cause;
`restartWarning` is the `restart_bluetooth_stack` print; `exhausted` is
the distinct attempts-exhausted entry the specification describes, which
no code path of `run` ever emits. -/
inductive SweepLog where
  | attemptFailure (addr : String) (attempt : ℕ) (cause : String)
  | exhausted (addr : String)
  | restartWarning
  deriving DecidableEq

/-- `RadonEyeReaderApp.handle_sensor_error` (radoneye-reader.py lines
293 to 309): always prints the attempt failure with address, attempt
number and cause; additionally restarts bluetooth (printing a warning)
only before the last attempt and only when enabled. -/
def handle_sensor_error (addr cause : String) (attempt maxAttempts : ℕ)
    (restartBt : Bool) : List SweepLog :=
  [SweepLog.attemptFailure addr attempt cause]
    ++ (if attempt < maxAttempts ∧ attempt = maxAttempts - 1 ∧ restartBt
        then [SweepLog.restartWarning] else [])

/-- The per-device while loop of `RadonEyeReaderApp.run`
(radoneye-reader.py lines 349 to 361): `attempt` starts at 1 and the
loop runs while `attempt > 0 and attempt <= attempts`; a successful read
sets `attempt = 0` (exiting with the data), a failure runs
`handle_sensor_error` and increments `attempt`.  `fuel` bounds the
recursion; `maxAttempts` fuel is always enough. -/
def read_attempt_loop (addr : String) (maxAttempts : ℕ) (restartBt : Bool)
    (tryRead : ℕ → Except String Reading) : ℕ → ℕ → Option Reading × List SweepLog
  | _, 0 => (none, [])
  | attempt, fuel + 1 =>
    if 1 ≤ attempt ∧ attempt ≤ maxAttempts then
      match tryRead attempt with
      | .ok d => (some d, [])
      | .error cause =>
        let logs := handle_sensor_error addr cause attempt maxAttempts restartBt
        let rec_result := read_attempt_loop addr maxAttempts restartBt tryRead (attempt + 1) fuel
        (rec_result.1, logs ++ rec_result.2)
    else (none, [])

/-- One sweep over a single device: the loop entered with `attempt = 1`. -/
def device_sweep (addr : String) (maxAttempts : ℕ) (restartBt : Bool)
    (tryRead : ℕ → Except String Reading) : Option Reading × List SweepLog :=
  read_attempt_loop addr maxAttempts restartBt tryRead 1 maxAttempts

/-- Number of attempt-failure entries in a log. -/
def countAttemptFailures (l : List SweepLog) : ℕ :=
  (l.filter fun e => match e with
    | SweepLog.attemptFailure _ _ _ => true
    | _ => false).length

/-- Number of distinct exhausted entries in a log. -/
def countExhausted (l : List SweepLog) : ℕ :=
  (l.filter fun e => match e with
    | SweepLog.exhausted _ => true
    | _ => false).length

/-- `RadonEyeReaderApp.publish_device_event` (radoneye-reader.py lines
252 to 256): publishes one message per field of the reading on
`deviceTopic ++ "/" ++ key` with the configured retain flag, iterating
the fields in order.  There is no per-field exception handling: the
first failing publish raises out of the loop and the remaining fields
are never attempted.  Returns the messages actually handed to the bus
and the raised error, if any. -/
def publish_device_event (deviceTopic : String) (retain : Bool)
    (bus : String → String → Bool → Except String Unit) :
    List (String × String) → List (String × String × Bool) × Option String
  | [] => ([], none)
  | (key, value) :: rest =>
    match bus (deviceTopic ++ "/" ++ key) value retain with
    | .ok _ =>
      let tail := publish_device_event deviceTopic retain bus rest
      ((deviceTopic ++ "/" ++ key, value, retain) :: tail.1, tail.2)
    | .error e => ([], some e)

/-- The caller in `RadonEyeReaderApp.run` (radoneye-reader.py lines 373
to 377): the whole `publish_device_event` call is wrapped in one
try/except whose handler logs a single error line. -/
def publish_with_handler (addr deviceTopic : String) (retain : Bool)
    (bus : String → String → Bool → Except String Unit)
    (fields : List (String × String)) : List (String × String × Bool) × List String :=
  let result := publish_device_event deviceTopic retain bus fields
  (result.1,
    match result.2 with
    | some e => [addr ++ ": unable to publish device event data to MQTT due to error: " ++ e]
    | none => [])

/-- The default connection-establishment timeout of the `BleakClient`
transport collaborator, in seconds, used when no `timeout` keyword is
supplied. -/
def bleak_default_timeout : ℕ := 10

/-- The keyword arguments `RadonEyeReader.read_sensor_data` passes to the
transport constructor (radoneye-reader.py line 101):
`BleakClient(self.address, timout=self.connect_timeout)` — the keyword
is misspelled `timout`, not `timeout`. -/
def bleak_client_kwargs (connect_timeout : ℕ) : List (String × ℕ) :=
  [("timout", connect_timeout)]

/-- The connect timeout the transport actually uses: the value of the
`timeout` keyword when present, else its default. -/
def effective_connect_timeout (kwargs : List (String × ℕ)) : ℕ :=
  (kwargs.lookup "timeout").getD bleak_default_timeout

/-- The bound on the wait for the notification after the command write:
`asyncio.wait_for(future, timeout=self.read_timeout)`
(radoneye-reader.py line 104). -/
def notification_wait_timeout (read_timeout : ℕ) : ℕ := read_timeout

/-- The hard ceiling the caller wraps around the whole read:
`asyncio.wait_for(reader.read_sensor_data(), timeout=connect_timeout +
read_timeout)` (radoneye-reader.py lines 352 to 355). -/
def overall_attempt_timeout (connect_timeout read_timeout : ℕ) : ℕ :=
  connect_timeout + read_timeout

/-- The byte layout of the current packet as the specification states it,
relative to the record produced by the parser: string fields at their
offsets and lengths, 16-bit little-endian fields at theirs. -/
def CurrentLayout (data : List ℕ) (r : Reading) : Prop :=
  (∃ s1 s2 s3, read_str data 8 3 = .ok s1 ∧ read_str data 2 6 = .ok s2
      ∧ read_str data 11 4 = .ok s3 ∧ r.serial = s1 ++ s2 ++ s3)
  ∧ read_str data 16 6 = .ok r.model
  ∧ read_str data 22 6 = .ok r.version
  ∧ r.latest_bq_m3 = data.getD 33 0 + 256 * data.getD 34 0
  ∧ r.day_avg_bq_m3 = data.getD 35 0 + 256 * data.getD 36 0
  ∧ r.month_avg_bq_m3 = data.getD 37 0 + 256 * data.getD 38 0
  ∧ r.counts_current = data.getD 39 0 + 256 * data.getD 40 0
  ∧ r.counts_previous = data.getD 41 0 + 256 * data.getD 42 0
  ∧ r.uptime_minutes = data.getD 43 0 + 256 * data.getD 44 0
  ∧ r.peak_bq_m3 = data.getD 51 0 + 256 * data.getD 52 0

/-- The derived fields of a reading, each a pure function of the raw
fields it is paired with. -/
def DerivedFields (r : Reading) : Prop :=
  r.latest_pci_l = to_pci_l r.latest_bq_m3
  ∧ r.day_avg_pci_l = to_pci_l r.day_avg_bq_m3
  ∧ r.month_avg_pci_l = to_pci_l r.month_avg_bq_m3
  ∧ r.peak_pci_l = to_pci_l r.peak_bq_m3
  ∧ r.counts_str = toString r.counts_current ++ "/" ++ toString r.counts_previous
  ∧ r.uptime_str = uptime_str_of r.uptime_minutes

/-- All five string-field extractions of the current packet decode. -/
def string_fields_ok (data : List ℕ) : Bool :=
  (read_str data 8 3).isOk && (read_str data 2 6).isOk && (read_str data 11 4).isOk
    && (read_str data 16 6).isOk && (read_str data 22 6).isOk

/-- The offsets of the 16-bit fields of the current packet, in the
order the parser extracts them. -/
def shortOffsets : List ℕ := [33, 35, 37, 39, 41, 43, 51]

/-- A 53-byte current packet: ASCII byte `0x30` everywhere except
offsets 33 and 34, which hold `0x0032` little-endian. -/
def buf50 : List ℕ := List.replicate 33 48 ++ [50, 0] ++ List.replicate 18 48

/-- The reading `buf50` parses to. -/
def res50 : Reading :=
  { serial := "0000000000000"
    model := "000000"
    version := "000000"
    latest_bq_m3 := 50
    latest_pci_l := to_pci_l 50
    day_avg_bq_m3 := 12336
    day_avg_pci_l := to_pci_l 12336
    month_avg_bq_m3 := 12336
    month_avg_pci_l := to_pci_l 12336
    peak_bq_m3 := 12336
    peak_pci_l := to_pci_l 12336
    counts_current := 12336
    counts_previous := 12336
    counts_str := "12336/12336"
    uptime_minutes := 12336
    uptime_str := uptime_str_of 12336 }

/-- A 40-byte buffer of ASCII bytes, shorter than a full current packet. -/
def buf40 : List ℕ := List.replicate 40 48

instance {ε α : Type} [DecidableEq ε] [DecidableEq α] : DecidableEq (Except ε α) := fun x y =>
  match x, y with
  | .ok a, .ok b =>
    if h : a = b then .isTrue (congrArg Except.ok h)
    else .isFalse (fun hh => h (Except.ok.inj hh))
  | .error a, .error b =>
    if h : a = b then .isTrue (congrArg Except.error h)
    else .isFalse (fun hh => h (Except.error.inj hh))
  | .ok _, .error _ => .isFalse (fun hh => Except.noConfusion hh)
  | .error _, .ok _ => .isFalse (fun hh => Except.noConfusion hh)

lemma parse_buf50 : parse_sensor_data buf50 = .ok res50 := by decide

lemma bind_ok {ε α β : Type} (m : Except ε α) (k : α → Except ε β) (b : β) :
    (m >>= k) = .ok b ↔ ∃ a, m = .ok a ∧ k a = .ok b := by
  cases m <;> simp [Bind.bind, Except.bind]

lemma pure_ok {ε α : Type} (a b : α) : (pure a : Except ε α) = .ok b ↔ a = b := by
  simp [pure, Except.pure]

lemma isOk_iff {ε α : Type} (e : Except ε α) : e.isOk = true ↔ ∃ a, e = .ok a := by
  cases e <;> simp [Except.isOk, Except.toBool]

lemma slice_two (data : List ℕ) (s : ℕ) (h : s + 2 ≤ data.length) :
    slice data s 2 = [data.getD s 0, data.getD (s + 1) 0] := by
  have h1 : s < data.length := by omega
  have h2 : s + 1 < data.length := by omega
  unfold slice
  rw [List.drop_eq_getElem_cons h1, List.drop_eq_getElem_cons h2]
  simp only [List.take_succ_cons, List.take_zero]
  rw [List.getD_eq_getElem data 0 h1, List.getD_eq_getElem data 0 h2]

lemma read_short_ok (data : List ℕ) (s : ℕ) (h : s + 2 ≤ data.length) :
    read_short data s = .ok (data.getD s 0 + 256 * data.getD (s + 1) 0) := by
  unfold read_short
  rw [slice_two data s h]

lemma read_short_err (data : List ℕ) (s : ℕ) (h : data.length < s + 2) :
    read_short data s = .error (.shortOutOfRange s) := by
  have hlen : (slice data s 2).length < 2 := by
    unfold slice; simp [List.length_take]; omega
  unfold read_short
  rcases hs : slice data s 2 with _ | ⟨lo, _ | ⟨hi, rest⟩⟩
  · rfl
  · rfl
  · rw [hs] at hlen; exfalso; simp only [List.length_cons] at hlen; omega

lemma read_short_eq (data : List ℕ) (s v : ℕ) (h : read_short data s = .ok v) :
    v = data.getD s 0 + 256 * data.getD (s + 1) 0 := by
  by_cases hl : s + 2 ≤ data.length
  · rw [read_short_ok data s hl] at h
    exact (Except.ok.inj h).symm
  · rw [read_short_err data s (by omega)] at h
    exact absurd h (by simp)

lemma slice_take (data : List ℕ) (s n m : ℕ) (h : s + n ≤ m) :
    slice (data.take m) s n = slice data s n := by
  unfold slice
  rw [List.drop_take, List.take_take]
  congr 1
  omega

lemma parse_ok_inv (data : List ℕ) (r : Reading) (h : parse_sensor_data data = .ok r) :
    CurrentLayout data r ∧ DerivedFields r := by
  simp only [parse_sensor_data, bind_ok, pure_ok] at h
  obtain ⟨s1, hs1, s2, hs2, s3, hs3, mo, hmo, ve, hve, l33, h33, l35, h35, l37, h37,
    l39, h39, l41, h41, l43, h43, l51, h51, hrec⟩ := h
  subst hrec
  exact ⟨⟨⟨s1, s2, s3, hs1, hs2, hs3, rfl⟩, hmo, hve,
    read_short_eq data 33 l33 h33, read_short_eq data 35 l35 h35,
    read_short_eq data 37 l37 h37, read_short_eq data 39 l39 h39,
    read_short_eq data 41 l41 h41, read_short_eq data 43 l43 h43,
    read_short_eq data 51 l51 h51⟩,
    rfl, rfl, rfl, rfl, rfl, rfl⟩

lemma slice_take_53 (data : List ℕ) (s n : ℕ) (h : s + n ≤ 53) :
    slice (data.take 53) s n = slice data s n := slice_take data s n 53 h

lemma parse_take_53 (data : List ℕ) :
    parse_sensor_data (data.take 53) = parse_sensor_data data := by
  simp only [parse_sensor_data, read_str, read_short,
    slice_take_53 data 8 3 (by norm_num), slice_take_53 data 2 6 (by norm_num),
    slice_take_53 data 11 4 (by norm_num), slice_take_53 data 16 6 (by norm_num),
    slice_take_53 data 22 6 (by norm_num), slice_take_53 data 33 2 (by norm_num),
    slice_take_53 data 35 2 (by norm_num), slice_take_53 data 37 2 (by norm_num),
    slice_take_53 data 39 2 (by norm_num), slice_take_53 data 41 2 (by norm_num),
    slice_take_53 data 43 2 (by norm_num), slice_take_53 data 51 2 (by norm_num)]

lemma parse_ok_of (data : List ℕ) (hlen : 53 ≤ data.length)
    (hstr : string_fields_ok data = true) : (parse_sensor_data data).isOk = true := by
  simp only [string_fields_ok, Bool.and_eq_true] at hstr
  obtain ⟨⟨⟨⟨h8, h2⟩, h11⟩, h16⟩, h22⟩ := hstr
  obtain ⟨s1, hs1⟩ := (isOk_iff _).mp h8
  obtain ⟨s2, hs2⟩ := (isOk_iff _).mp h2
  obtain ⟨s3, hs3⟩ := (isOk_iff _).mp h11
  obtain ⟨mo, hmo⟩ := (isOk_iff _).mp h16
  obtain ⟨ve, hve⟩ := (isOk_iff _).mp h22
  simp only [parse_sensor_data, hs1, hs2, hs3, hmo, hve,
    read_short_ok data 33 (by omega), read_short_ok data 35 (by omega),
    read_short_ok data 37 (by omega), read_short_ok data 39 (by omega),
    read_short_ok data 41 (by omega), read_short_ok data 43 (by omega),
    read_short_ok data 51 (by omega)]
  rfl

lemma parse_err_short (data : List ℕ) (hlen : data.length < 53)
    (hstr : string_fields_ok data = true) :
    ∃ o, o ∈ shortOffsets ∧ data.length < o + 2
      ∧ parse_sensor_data data = .error (.shortOutOfRange o) := by
  simp only [string_fields_ok, Bool.and_eq_true] at hstr
  obtain ⟨⟨⟨⟨h8, h2⟩, h11⟩, h16⟩, h22⟩ := hstr
  obtain ⟨s1, hs1⟩ := (isOk_iff _).mp h8
  obtain ⟨s2, hs2⟩ := (isOk_iff _).mp h2
  obtain ⟨s3, hs3⟩ := (isOk_iff _).mp h11
  obtain ⟨mo, hmo⟩ := (isOk_iff _).mp h16
  obtain ⟨ve, hve⟩ := (isOk_iff _).mp h22
  by_cases c33 : data.length < 35
  · refine ⟨33, by decide, by omega, ?_⟩
    simp only [parse_sensor_data, hs1, hs2, hs3, hmo, hve, read_short_err data 33 (by omega)]
    rfl
  by_cases c35 : data.length < 37
  · refine ⟨35, by decide, by omega, ?_⟩
    simp only [parse_sensor_data, hs1, hs2, hs3, hmo, hve,
      read_short_ok data 33 (by omega), read_short_err data 35 (by omega)]
    rfl
  by_cases c37 : data.length < 39
  · refine ⟨37, by decide, by omega, ?_⟩
    simp only [parse_sensor_data, hs1, hs2, hs3, hmo, hve,
      read_short_ok data 33 (by omega), read_short_ok data 35 (by omega),
      read_short_err data 37 (by omega)]
    rfl
  by_cases c39 : data.length < 41
  · refine ⟨39, by decide, by omega, ?_⟩
    simp only [parse_sensor_data, hs1, hs2, hs3, hmo, hve,
      read_short_ok data 33 (by omega), read_short_ok data 35 (by omega),
      read_short_ok data 37 (by omega), read_short_err data 39 (by omega)]
    rfl
  by_cases c41 : data.length < 43
  · refine ⟨41, by decide, by omega, ?_⟩
    simp only [parse_sensor_data, hs1, hs2, hs3, hmo, hve,
      read_short_ok data 33 (by omega), read_short_ok data 35 (by omega),
      read_short_ok data 37 (by omega), read_short_ok data 39 (by omega),
      read_short_err data 41 (by omega)]
    rfl
  by_cases c43 : data.length < 45
  · refine ⟨43, by decide, by omega, ?_⟩
    simp only [parse_sensor_data, hs1, hs2, hs3, hmo, hve,
      read_short_ok data 33 (by omega), read_short_ok data 35 (by omega),
      read_short_ok data 37 (by omega), read_short_ok data 39 (by omega),
      read_short_ok data 41 (by omega), read_short_err data 43 (by omega)]
    rfl
  · refine ⟨51, by decide, by omega, ?_⟩
    simp only [parse_sensor_data, hs1, hs2, hs3, hmo, hve,
      read_short_ok data 33 (by omega), read_short_ok data 35 (by omega),
      read_short_ok data 37 (by omega), read_short_ok data 39 (by omega),
      read_short_ok data 41 (by omega), read_short_ok data 43 (by omega),
      read_short_err data 51 (by omega)]
    rfl

lemma decode_ok_inv (data : List ℕ) (res : HistResult)
    (h : decode_history_data data = .ok res) :
    4 ≤ data.length ∧ (data.length - 4) % 2 = 0
    ∧ res.finalBuffer = data.drop 4
    ∧ res.historyDone = (res.page.page_count == res.page.page_no)
    ∧ (res.warnings = [] ↔ (res.page.command = COMMAND_HISTORY
        ∧ res.page.values_bq_m3.length = res.page.value_count)) := by
  rcases data with _ | ⟨c, _ | ⟨pc, _ | ⟨pn, _ | ⟨vc, rest⟩⟩⟩⟩
  · exact absurd h (by simp [decode_history_data])
  · exact absurd h (by simp [decode_history_data])
  · exact absurd h (by simp [decode_history_data])
  · exact absurd h (by simp [decode_history_data])
  · simp only [decode_history_data] at h
    by_cases he : rest.length % 2 = 0
    · rw [if_pos he] at h
      cases Except.ok.inj h
      refine ⟨by simp only [List.length_cons]; omega,
        by simp only [List.length_cons]; omega, rfl, rfl, ?_⟩
      split_ifs with h1 h2 <;> simp_all [COMMAND_HISTORY]
    · rw [if_neg he] at h
      exact absurd h (by simp)

lemma decode_err_iff (data : List ℕ) :
    (∃ e, decode_history_data data = .error e)
      ↔ (data.length < 4 ∨ (data.length - 4) % 2 = 1) := by
  rcases data with _ | ⟨c, _ | ⟨pc, _ | ⟨pn, _ | ⟨vc, rest⟩⟩⟩⟩
  · exact iff_of_true ⟨.headerTooShort, rfl⟩ (Or.inl (by simp))
  · exact iff_of_true ⟨.headerTooShort, rfl⟩ (Or.inl (by simp))
  · exact iff_of_true ⟨.headerTooShort, rfl⟩ (Or.inl (by simp))
  · exact iff_of_true ⟨.headerTooShort, rfl⟩ (Or.inl (by simp))
  · simp only [decode_history_data]
    by_cases he : rest.length % 2 = 0
    · rw [if_pos he]
      refine iff_of_false ?_ ?_
      · rintro ⟨e, hh⟩
        exact Except.noConfusion hh
      · rintro (h1 | h1) <;> simp only [List.length_cons] at h1 <;> omega
    · rw [if_neg he]
      refine iff_of_true ⟨.oddPayload, rfl⟩ (Or.inr ?_)
      simp only [List.length_cons]
      omega

lemma packShorts_cons (v : ℕ) (t : List ℕ) :
    packShorts (v :: t) = v % 256 :: v / 256 :: packShorts t := by
  simp [packShorts]

lemma packShorts_len (vs : List ℕ) : (packShorts vs).length = 2 * vs.length := by
  induction vs with
  | nil => rfl
  | cons v t ih =>
    rw [packShorts_cons]
    simp only [List.length_cons, ih]
    omega

lemma unpack_pack (vs : List ℕ) : unpackShorts (packShorts vs) = vs := by
  induction vs with
  | nil => rfl
  | cons v t ih =>
    rw [packShorts_cons]
    show (v % 256 + 256 * (v / 256)) :: unpackShorts (packShorts t) = v :: t
    rw [Nat.mod_add_div v 256, ih]

lemma decode_packed_values (cmd pc pn vc : ℕ) (vs : List ℕ) (res : HistResult)
    (h : decode_history_data (cmd :: pc :: pn :: vc :: packShorts vs) = .ok res) :
    res.page.values_bq_m3 = vs := by
  simp only [decode_history_data] at h
  rw [if_pos (by rw [packShorts_len]; omega)] at h
  cases Except.ok.inj h
  simp [unpack_pack]

lemma foldl_done (l : List HistoryPage) (b : Bool) :
    l.foldl history_done_step b = (b || l.any fun p => p.page_count == p.page_no) := by
  induction l generalizing b with
  | nil => simp
  | cons p t ih => simp [history_done_step, ih, Bool.or_assoc]

lemma publish_all_ok (topic : String) (retain : Bool)
    (bus : String → String → Bool → Except String Unit)
    (hbus : ∀ t v r, bus t v r = .ok ()) (fields : List (String × String)) :
    publish_device_event topic retain bus fields
      = (fields.map fun kv => (topic ++ "/" ++ kv.1, kv.2, retain), none) := by
  induction fields with
  | nil => rfl
  | cons kv rest ih =>
    obtain ⟨k, v⟩ := kv
    simp [publish_device_event, hbus, ih]

lemma publish_fail (topic : String) (retain : Bool)
    (bus : String → String → Bool → Except String Unit)
    (pre post : List (String × String)) (k v e : String)
    (hpre : ∀ kv ∈ pre, bus (topic ++ "/" ++ kv.1) kv.2 retain = .ok ())
    (hfail : bus (topic ++ "/" ++ k) v retain = .error e) :
    publish_device_event topic retain bus (pre ++ (k, v) :: post)
      = (pre.map fun kv => (topic ++ "/" ++ kv.1, kv.2, retain), some e) := by
  induction pre with
  | nil => simp [publish_device_event, hfail]
  | cons kv rest ih =>
    obtain ⟨k0, v0⟩ := kv
    have h0 := hpre (k0, v0) (by simp)
    simp [publish_device_event, h0, ih (fun kv hkv => hpre kv (by simp [hkv]))]

/-- Values carried by the first concrete history page. -/
def vs1 : List ℕ := [1, 2, 3, 4, 5, 6, 7, 8, 9, 10]

/-- Values carried by the second concrete history page. -/
def vs2 : List ℕ := [11, 12, 13, 14, 15, 16, 17, 18, 19, 20]

/-- Concrete page 1 of 2 (not the final page). -/
def page1 : HistoryPage :=
  { command := 65, page_count := 2, page_no := 1, value_count := 10,
    values_bq_m3 := vs1, values_pci_l := vs1.map to_pci_l }

/-- Concrete page 2 of 2 (the final page). -/
def page2 : HistoryPage :=
  { command := 65, page_count := 2, page_no := 2, value_count := 10,
    values_bq_m3 := vs2, values_pci_l := vs2.map to_pci_l }

/-- The full decode result of the wire form of `page1`. -/
def r1 : HistResult :=
  { page := page1, finalBuffer := packShorts vs1, historyDone := false, warnings := [] }

/-- A structurally well-formed history result whose declared value count
disagrees with the actual number of values. -/
def hist_res_mismatch : HistResult :=
  { page := { command := 65, page_count := 1, page_no := 2, value_count := 3,
              values_bq_m3 := [7], values_pci_l := [to_pci_l 7] },
    finalBuffer := [7, 0], historyDone := false,
    warnings := [HistWarning.valueCountMismatch 3 1] }

/-- Claim C1: every buffer accepted by the current-packet decoder is read
through the fixed byte layout — serial is the concatenation of the 3-byte
string at offset 8, the 6-byte string at offset 2 and the 4-byte string
at offset 11, model and firmware version are the 6-byte strings at
offsets 16 and 22, and the latest, day-average, month-average, radiation
count, uptime and peak fields are the little-endian unsigned 16-bit
integers at offsets 33, 35, 37, 39, 41, 43 and 51; in particular a buffer
whose bytes at offset 33 encode 0x0032 decodes to latest reading 50 Bq/m3
and 1.35 pCi/L (represented as 135 hundredths). -/
theorem c1_current_packet_layout :
    (∀ data r, parse_sensor_data data = .ok r → CurrentLayout data r)
    ∧ parse_sensor_data buf50 = .ok res50
    ∧ buf50.getD 33 0 = 50 ∧ buf50.getD 34 0 = 0
    ∧ res50.latest_bq_m3 = 50 ∧ res50.latest_pci_l = 135 :=
  ⟨fun data r h => (parse_ok_inv data r h).1, parse_buf50,
    by decide, by decide, rfl, by decide⟩

theorem c1_current_packet_layout_wit : CurrentLayout buf50 res50 :=
  c1_current_packet_layout.1 buf50 res50 c1_current_packet_layout.2.1

/-- Claim C2: for every reading produced by the decoder, each pCi/L field
equals `round(bqM3 / 37, 2)` of its paired Bq/m3 field (in hundredths);
the conversion is a total deterministic function of the non-negative
integers, and re-decoding the same bytes yields the same result. -/
theorem c2_pci_l_conversion :
    (∀ data r, parse_sensor_data data = .ok r →
      r.latest_pci_l = to_pci_l r.latest_bq_m3
      ∧ r.day_avg_pci_l = to_pci_l r.day_avg_bq_m3
      ∧ r.month_avg_pci_l = to_pci_l r.month_avg_bq_m3
      ∧ r.peak_pci_l = to_pci_l r.peak_bq_m3)
    ∧ (∀ bq : ℕ, bq ≤ 65535 → to_pci_l bq = roundHalfEven (100 * bq) 37)
    ∧ to_pci_l 50 = 135
    ∧ (∀ d1 d2 : List ℕ, d1 = d2 → parse_sensor_data d1 = parse_sensor_data d2) :=
  ⟨fun data r h =>
    ⟨(parse_ok_inv data r h).2.1, (parse_ok_inv data r h).2.2.1,
     (parse_ok_inv data r h).2.2.2.1, (parse_ok_inv data r h).2.2.2.2.1⟩,
   fun _ _ => rfl, by decide, fun _ _ h => by rw [h]⟩

theorem c2_pci_l_conversion_wit :
    (res50.latest_pci_l = to_pci_l res50.latest_bq_m3
      ∧ res50.day_avg_pci_l = to_pci_l res50.day_avg_bq_m3
      ∧ res50.month_avg_pci_l = to_pci_l res50.month_avg_bq_m3
      ∧ res50.peak_pci_l = to_pci_l res50.peak_bq_m3)
    ∧ to_pci_l 50 = roundHalfEven (100 * 50) 37
    ∧ parse_sensor_data buf50 = parse_sensor_data buf50 :=
  ⟨c2_pci_l_conversion.1 buf50 res50 parse_buf50,
   c2_pci_l_conversion.2.1 50 (by decide),
   c2_pci_l_conversion.2.2.2 buf50 buf50 rfl⟩

/-- Claim C3 (counterexample): a permanently failing device with
`maxAttempts = 5` yields a log with zero distinct exhausted entries, not
exactly one as the claim states — `run` has no code path emitting a
distinct exhausted message after the last attempt fails. -/
theorem c3_retry_counterexample :
    countExhausted (device_sweep ("AA:BB:CC:DD:EE:FF") 5 false
      (fun _ => .error ("connect timed out"))).2 = 0
    ∧ ¬ countExhausted (device_sweep ("AA:BB:CC:DD:EE:FF") 5 false
      (fun _ => .error ("connect timed out"))).2 = 1 := by
  decide

/-- Claim C3 (amended): for `maxAttempts = 5`, one sweep over a
permanently failing device performs exactly 5 read attempts, logs each
failure with the device address, attempt number and cause, obtains no
data, and emits no distinct exhausted log entry (the final failure is
logged exactly like the earlier ones). -/
theorem c3_retry_amended (addr cause : String) :
    device_sweep addr 5 false (fun _ => .error cause)
      = (none, [SweepLog.attemptFailure addr 1 cause, SweepLog.attemptFailure addr 2 cause,
          SweepLog.attemptFailure addr 3 cause, SweepLog.attemptFailure addr 4 cause,
          SweepLog.attemptFailure addr 5 cause])
    ∧ countAttemptFailures (device_sweep addr 5 false (fun _ => .error cause)).2 = 5
    ∧ countExhausted (device_sweep addr 5 false (fun _ => .error cause)).2 = 0 :=
  ⟨rfl, rfl, rfl⟩

/-- Claim C4: the history decoder fails only on structurally malformed
input — a buffer shorter than the 4-byte header or an odd number of
remaining bytes; a command-code or value-count mismatch still yields a
usable result, carrying only non-fatal validation warnings. -/
theorem c4_history_decode_errors :
    ∀ data : List ℕ,
      ((∃ e, decode_history_data data = .error e)
        ↔ (data.length < 4 ∨ (data.length - 4) % 2 = 1))
      ∧ (∀ res, decode_history_data data = .ok res →
          (res.warnings = [] ↔ (res.page.command = COMMAND_HISTORY
            ∧ res.page.values_bq_m3.length = res.page.value_count))) :=
  fun data =>
    ⟨decode_err_iff data, fun res h => (decode_ok_inv data res h).2.2.2.2⟩

theorem c4_history_decode_errors_wit :
    (∃ e, decode_history_data [65] = .error e)
    ∧ (hist_res_mismatch.warnings = []
        ↔ (hist_res_mismatch.page.command = COMMAND_HISTORY
          ∧ hist_res_mismatch.page.values_bq_m3.length
            = hist_res_mismatch.page.value_count)) :=
  ⟨(c4_history_decode_errors [65]).1.mpr (by decide),
   (c4_history_decode_errors [65, 1, 2, 3, 7, 0]).2 hist_res_mismatch (by decide)⟩

/-- Claim C5: a dump is complete exactly when a page with
`page_no == page_count` has been processed — a page with a different
page number leaves the flag unset and the final page sets it; decoding
a page built from a value list returns exactly that list, so
reassembling pages in arrival order preserves the original value order
and two 10-value pages yield 20 values. -/
theorem c5_history_completeness :
    (∀ pages : List HistoryPage,
      process_pages pages = true ↔ ∃ p ∈ pages, p.page_count = p.page_no)
    ∧ (∀ data res, decode_history_data data = .ok res →
        res.historyDone = (res.page.page_count == res.page.page_no))
    ∧ (∀ p, p.page_no ≠ p.page_count → history_done_step false p = false)
    ∧ (∀ p, p.page_no = p.page_count → history_done_step false p = true)
    ∧ (∀ cmd pc pn vc vs res,
        decode_history_data (cmd :: pc :: pn :: vc :: packShorts vs) = .ok res →
        res.page.values_bq_m3 = vs)
    ∧ (∀ p1 p2 : HistoryPage, reassemble [p1, p2] = p1.values_bq_m3 ++ p2.values_bq_m3)
    ∧ (∀ p1 p2 : HistoryPage, p1.values_bq_m3.length = 10 → p2.values_bq_m3.length = 10 →
        (reassemble [p1, p2]).length = 20) := by
  refine ⟨?_, ?_, ?_, ?_, ?_, ?_, ?_⟩
  · intro pages
    unfold process_pages
    rw [foldl_done]
    simp [List.any_eq_true]
  · exact fun data res h => (decode_ok_inv data res h).2.2.2.1
  · intro p h
    simp only [history_done_step, Bool.false_or, beq_eq_false_iff_ne, ne_eq]
    omega
  · intro p h
    simp [history_done_step, h]
  · exact fun cmd pc pn vc vs res h => decode_packed_values cmd pc pn vc vs res h
  · intro p1 p2
    simp [reassemble]
  · intro p1 p2 h1 h2
    simp [reassemble, h1, h2]

theorem c5_history_completeness_wit :
    (process_pages [page1, page2] = true ↔ ∃ p ∈ [page1, page2], p.page_count = p.page_no)
    ∧ r1.historyDone = (r1.page.page_count == r1.page.page_no)
    ∧ history_done_step false page1 = false
    ∧ history_done_step false page2 = true
    ∧ r1.page.values_bq_m3 = vs1
    ∧ reassemble [page1, page2] = page1.values_bq_m3 ++ page2.values_bq_m3
    ∧ (reassemble [page1, page2]).length = 20 :=
  ⟨c5_history_completeness.1 [page1, page2],
   c5_history_completeness.2.1 (65 :: 2 :: 1 :: 10 :: packShorts vs1) r1 (by decide),
   c5_history_completeness.2.2.1 page1 (by decide),
   c5_history_completeness.2.2.2.1 page2 (by decide),
   c5_history_completeness.2.2.2.2.1 65 2 1 10 vs1 r1 (by decide),
   c5_history_completeness.2.2.2.2.2.1 page1 page2,
   c5_history_completeness.2.2.2.2.2.2 page1 page2 (by decide) (by decide)⟩

/-- Claim C6: the notification wait is bounded by the read timeout and
the caller wraps the whole read in connect plus read timeout, but the
connect timeout is passed to the transport under the misspelled keyword
`timout`, so connection establishment runs under the transport default
of 10 seconds, not under the configured connect timeout — contradicting
the code's own `--connect-timeout` help text. -/
theorem c6_timeouts_bug :
    effective_connect_timeout (bleak_client_kwargs 20) = bleak_default_timeout
    ∧ bleak_default_timeout ≠ 20
    ∧ (∀ c : ℕ, effective_connect_timeout (bleak_client_kwargs c) = bleak_default_timeout)
    ∧ (∀ r : ℕ, notification_wait_timeout r = r)
    ∧ (∀ c r : ℕ, overall_attempt_timeout c r = c + r) :=
  ⟨by decide, by decide, fun _ => rfl, fun _ => rfl, fun _ _ => rfl⟩

/-- Claim C7 (counterexample): with three fields and a bus that fails on
the second, only the first field is published — the third is never
attempted, so a partial failure does block the remaining fields. -/
theorem c7_publish_counterexample :
    publish_device_event ("top") true
        (fun t _ _ => if t = "top/b" then .error ("boom") else .ok ())
        [("a", "1"), ("b", "2"), ("c", "3")]
      = ([("top/a", "1", true)], some ("boom"))
    ∧ ("top/c", "3", true) ∉ (publish_device_event ("top") true
        (fun t _ _ => if t = "top/b" then .error ("boom") else .ok ())
        [("a", "1"), ("b", "2"), ("c", "3")]).1 := by
  decide

/-- Claim C7 (amended): when every bus publish succeeds, exactly one
message per field is emitted on `deviceTopic/fieldName` with the
configured retain flag; when the publish of one field fails, the fields
before it have been published, the fields after it are never attempted,
and the caller logs the failure once. -/
theorem c7_publish_amended :
    (∀ (topic : String) (retain : Bool) (bus : String → String → Bool → Except String Unit)
        (fields : List (String × String)), (∀ t v r, bus t v r = .ok ()) →
      publish_device_event topic retain bus fields
        = (fields.map fun kv => (topic ++ "/" ++ kv.1, kv.2, retain), none))
    ∧ (∀ (topic : String) (retain : Bool) (bus : String → String → Bool → Except String Unit)
        (pre post : List (String × String)) (k v e : String),
        (∀ kv ∈ pre, bus (topic ++ "/" ++ kv.1) kv.2 retain = .ok ()) →
        bus (topic ++ "/" ++ k) v retain = .error e →
        publish_device_event topic retain bus (pre ++ (k, v) :: post)
          = (pre.map fun kv => (topic ++ "/" ++ kv.1, kv.2, retain), some e))
    ∧ (∀ (addr topic : String) (retain : Bool)
        (bus : String → String → Bool → Except String Unit)
        (fields : List (String × String)) (msgs : List (String × String × Bool)) (e : String),
        publish_device_event topic retain bus fields = (msgs, some e) →
        publish_with_handler addr topic retain bus fields
          = (msgs, [addr ++ ": unable to publish device event data to MQTT due to error: " ++ e])) :=
  ⟨fun topic retain bus fields h => publish_all_ok topic retain bus h fields,
   fun topic retain bus pre post k v e hpre hfail =>
     publish_fail topic retain bus pre post k v e hpre hfail,
   fun addr topic retain bus fields msgs e h => by
     simp [publish_with_handler, h]⟩

theorem c7_publish_amended_wit :
    publish_device_event ("top") true (fun _ _ _ => .ok ()) [("a", "1"), ("b", "2")]
      = ([("a", "1"), ("b", "2")].map fun kv => (("top") ++ "/" ++ kv.1, kv.2, true), none)
    ∧ publish_device_event ("top") true
        (fun t _ _ => if t = "top/b" then .error ("x") else .ok ())
        ([("a", "1")] ++ ("b", "2") :: [("c", "3")])
      = ([("a", "1")].map fun kv => (("top") ++ "/" ++ kv.1, kv.2, true), some ("x"))
    ∧ publish_with_handler ("AA") ("top") true (fun _ _ _ => .error ("x")) [("a", "1")]
      = ([], [("AA") ++ ": unable to publish device event data to MQTT due to error: " ++ ("x")]) :=
  ⟨c7_publish_amended.1 ("top") true (fun _ _ _ => .ok ()) [("a", "1"), ("b", "2")]
      (fun _ _ _ => rfl),
   c7_publish_amended.2.1 ("top") true
      (fun t _ _ => if t = "top/b" then .error ("x") else .ok ())
      [("a", "1")] [("c", "3")] ("b") ("2") ("x") (by decide) (by decide),
   c7_publish_amended.2.2 ("AA") ("top") true (fun _ _ _ => .error ("x"))
      [("a", "1")] [] ("x") (by decide)⟩

/-- Claim C8 (counterexample): the history decoder does not leave its
input buffer unchanged — on a well-formed 8-byte page the four header
bytes are consumed from the buffer and the completion flag is set. -/
theorem c8_codec_counterexample :
    decode_history_data [65, 1, 1, 2, 50, 0, 16, 0]
      = .ok { page := { command := 65, page_count := 1, page_no := 1, value_count := 2,
                        values_bq_m3 := [50, 16], values_pci_l := [135, 43] },
              finalBuffer := [50, 0, 16, 0], historyDone := true, warnings := [] }
    ∧ [50, 0, 16, 0] ≠ [65, 1, 1, 2, 50, 0, 16, 0] := by
  decide

/-- Claim C8 (amended): both decoders are deterministic — equal buffers
decode to equal results — and the current-packet decoder reads its input
without modifying anything; the history decoder, however, consumes the
4-byte header from its input buffer, sets the owning object's completion
flag when `page_count == page_no`, and prints warnings on mismatches. -/
theorem c8_codec_amended :
    (∀ d1 d2 : List ℕ, d1 = d2 → parse_sensor_data d1 = parse_sensor_data d2)
    ∧ (∀ d1 d2 : List ℕ, d1 = d2 → decode_history_data d1 = decode_history_data d2)
    ∧ (∀ data res, decode_history_data data = .ok res →
        res.finalBuffer = data.drop 4
        ∧ res.historyDone = (res.page.page_count == res.page.page_no)) :=
  ⟨fun _ _ h => by rw [h], fun _ _ h => by rw [h],
   fun data res h => ⟨(decode_ok_inv data res h).2.2.1, (decode_ok_inv data res h).2.2.2.1⟩⟩

theorem c8_codec_amended_wit :
    parse_sensor_data buf50 = parse_sensor_data buf50
    ∧ decode_history_data [65] = decode_history_data [65]
    ∧ (r1.finalBuffer = (65 :: 2 :: 1 :: 10 :: packShorts vs1).drop 4
        ∧ r1.historyDone = (r1.page.page_count == r1.page.page_no)) :=
  ⟨c8_codec_amended.1 buf50 buf50 rfl, c8_codec_amended.2.1 [65] [65] rfl,
   c8_codec_amended.2.2 (65 :: 2 :: 1 :: 10 :: packShorts vs1) r1 (by decide)⟩

/-- Claim C9: the displayed uptime is computed as whole days, zero-padded
hours within the day and zero-padded minutes within the hour; 1500
minutes render as 1d 01:00 and 59 minutes as 0d 00:59. -/
theorem c9_uptime_display :
    (∀ m : ℕ, uptime_str_of m
        = toString (m / 1440) ++ "d " ++ pad2 (m % 1440 / 60) ++ ":" ++ pad2 (m % 60))
    ∧ (∀ data r, parse_sensor_data data = .ok r →
        r.uptime_str = uptime_str_of r.uptime_minutes)
    ∧ uptime_str_of 1500 = "1d 01:00"
    ∧ uptime_str_of 59 = "0d 00:59" :=
  ⟨fun _ => rfl,
   fun data r h => (parse_ok_inv data r h).2.2.2.2.2.2,
   by decide, by decide⟩

theorem c9_uptime_display_wit :
    res50.uptime_str = uptime_str_of res50.uptime_minutes :=
  c9_uptime_display.2.1 buf50 res50 parse_buf50

/-- Claim C10: the current-packet parser depends only on the first 53
bytes of its input; on any buffer of at least 53 bytes whose string
fields decode it succeeds; on any shorter buffer whose string fields
decode it fails at a 16-bit field whose 2-byte window extends past the
end of the buffer (string fields are silently truncated by slicing). -/
theorem c10_parse_bounds :
    (∀ data : List ℕ, parse_sensor_data (data.take 53) = parse_sensor_data data)
    ∧ (∀ data : List ℕ, 53 ≤ data.length → string_fields_ok data = true →
        (parse_sensor_data data).isOk = true)
    ∧ (∀ data : List ℕ, data.length < 53 → string_fields_ok data = true →
        ∃ o, o ∈ shortOffsets ∧ data.length < o + 2
          ∧ parse_sensor_data data = .error (.shortOutOfRange o)) :=
  ⟨parse_take_53, parse_ok_of, parse_err_short⟩

theorem c10_parse_bounds_wit :
    (parse_sensor_data buf50).isOk = true
    ∧ ∃ o, o ∈ shortOffsets ∧ buf40.length < o + 2
        ∧ parse_sensor_data buf40 = .error (.shortOutOfRange o) :=
  ⟨c10_parse_bounds.2.1 buf50 (by decide) (by decide),
   c10_parse_bounds.2.2 buf40 (by decide) (by decide)⟩

end RadonEye
